import Mathlib

/-!
Shallow embedding of the wrapper layer of the xla-rs repository
(src/src/wrappers/mod.rs and, where the source file is absent from the
snapshot, models built from the specification). Pure Rust functions become
Lean functions; native calls and destructor runs are recorded as explicit
event traces; Rust `Result` becomes `Except`, and an `unwrap` panic is
modelled as `Option.none`.
-/

namespace XlaRs

/-- Embeds the Rust enum `PrimitiveType` (mod.rs lines 35-55): every runtime
type tag, including the structural markers. -/
inductive PrimitiveType where
  | Invalid
  | Pred
  | S8
  | S16
  | S32
  | S64
  | U8
  | U16
  | U32
  | U64
  | F16
  | F32
  | Bf16
  | F64
  | C64
  | C128
  | Tuple
  | OpaqueType
  | Token
deriving Repr, DecidableEq

/-- The discriminant codes assigned in the Rust enum declaration. -/
def PrimitiveType.code : PrimitiveType → Nat
  | .Invalid => 0
  | .Pred => 1
  | .S8 => 2
  | .S16 => 3
  | .S32 => 4
  | .S64 => 5
  | .U8 => 6
  | .U16 => 7
  | .U32 => 8
  | .U64 => 9
  | .F16 => 10
  | .F32 => 11
  | .Bf16 => 16
  | .F64 => 12
  | .C64 => 15
  | .C128 => 18
  | .Tuple => 13
  | .OpaqueType => 14
  | .Token => 17

/-- Embeds the Rust enum `ElementType` (mod.rs lines 83-99): the subset of
primitive types usable as array element types. -/
inductive ElementType where
  | Pred
  | S8
  | S16
  | S32
  | S64
  | U8
  | U16
  | U32
  | U64
  | F16
  | F32
  | Bf16
  | F64
  | C64
  | C128
deriving Repr, DecidableEq

/-- The two `Error` variants of the crate that mod.rs constructs:
`NotAnElementType { got }` and `XlaError { msg, backtrace }`. -/
inductive Error where
  | NotAnElementType (got : PrimitiveType)
  | XlaError (msg : String) (backtrace : String)
deriving Repr, DecidableEq

/-- Embeds `PrimitiveType::element_type` (mod.rs lines 58-79). -/
def PrimitiveType.element_type : PrimitiveType → Except Error ElementType
  | .Pred => .ok .Pred
  | .S8 => .ok .S8
  | .S16 => .ok .S16
  | .S32 => .ok .S32
  | .S64 => .ok .S64
  | .U8 => .ok .U8
  | .U16 => .ok .U16
  | .U32 => .ok .U32
  | .U64 => .ok .U64
  | .F16 => .ok .F16
  | .F32 => .ok .F32
  | .Bf16 => .ok .Bf16
  | .F64 => .ok .F64
  | .C64 => .ok .C64
  | .C128 => .ok .C128
  | .Invalid => .error (.NotAnElementType .Invalid)
  | .Tuple => .error (.NotAnElementType .Tuple)
  | .OpaqueType => .error (.NotAnElementType .OpaqueType)
  | .Token => .error (.NotAnElementType .Token)

/-- The four structural codes of the last match arm of
`PrimitiveType::element_type` (mod.rs line 75). -/
def PrimitiveType.isStructural : PrimitiveType → Bool
  | .Invalid => true
  | .Tuple => true
  | .OpaqueType => true
  | .Token => true
  | _ => false

/-- Embeds `ElementType::element_size_in_bytes` (mod.rs lines 103-121). -/
def ElementType.element_size_in_bytes : ElementType → Nat
  | .Pred => 1
  | .S8 => 1
  | .S16 => 2
  | .S32 => 4
  | .S64 => 8
  | .U8 => 1
  | .U16 => 2
  | .U32 => 4
  | .U64 => 8
  | .F16 => 2
  | .F32 => 4
  | .Bf16 => 2
  | .F64 => 8
  | .C64 => 8
  | .C128 => 16

/-- Embeds `ElementType::primitive_type` (mod.rs lines 123-141). -/
def ElementType.primitive_type : ElementType → PrimitiveType
  | .Pred => .Pred
  | .S8 => .S8
  | .S16 => .S16
  | .S32 => .S32
  | .S64 => .S64
  | .U8 => .U8
  | .U16 => .U16
  | .U32 => .U32
  | .U64 => .U64
  | .F16 => .F16
  | .F32 => .F32
  | .Bf16 => .Bf16
  | .F64 => .F64
  | .C64 => .C64
  | .C128 => .C128

/-- The ten primitive host numeric types of Rust that the spec lists as
supported (8/16/32/64-bit signed and unsigned integers, 32/64-bit floats). -/
inductive HostNumType where
  | i8
  | i16
  | i32
  | i64
  | u8
  | u16
  | u32
  | u64
  | f32
  | f64
deriving Repr, DecidableEq

/-- One `impl NativeType for T` block: the eight native binding functions the
`native_type!` macro (mod.rs lines 169-207) wires up for the type. -/
structure NativeTypeImpl where
  cst_r0 : String
  cst_r1 : String
  cst_r1c : String
  cst_r2 : String
  cre_r0 : String
  cre_r1 : String
  cre_r2 : String
  get_first : String
deriving Repr, DecidableEq

/-- The table of `native_type!` macro invocations in mod.rs (lines 209-279):
which host numeric types have an `impl NativeType`, and with which native
binding functions. Types with no invocation map to `none`. -/
def nativeTypeImpl : HostNumType → Option NativeTypeImpl
  | .i32 => some
      { cst_r0 := "constant_r0_int32_t"
        cst_r1 := "constant_r1_int32_t"
        cst_r1c := "constant_r1c_int32_t"
        cst_r2 := "constant_r2_int32_t"
        cre_r0 := "create_r0_int32_t"
        cre_r1 := "create_r1_int32_t"
        cre_r2 := "create_r2_int32_t"
        get_first := "literal_get_first_element_int32_t" }
  | .i64 => some
      { cst_r0 := "constant_r0_int64_t"
        cst_r1 := "constant_r1_int64_t"
        cst_r1c := "constant_r1c_int64_t"
        cst_r2 := "constant_r2_int64_t"
        cre_r0 := "create_r0_int64_t"
        cre_r1 := "create_r1_int64_t"
        cre_r2 := "create_r2_int64_t"
        get_first := "literal_get_first_element_int64_t" }
  | .u32 => some
      { cst_r0 := "constant_r0_uint32_t"
        cst_r1 := "constant_r1_uint32_t"
        cst_r1c := "constant_r1c_uint32_t"
        cst_r2 := "constant_r2_uint32_t"
        cre_r0 := "create_r0_uint32_t"
        cre_r1 := "create_r1_uint32_t"
        cre_r2 := "create_r2_uint32_t"
        get_first := "literal_get_first_element_uint32_t" }
  | .u64 => some
      { cst_r0 := "constant_r0_uint64_t"
        cst_r1 := "constant_r1_uint64_t"
        cst_r1c := "constant_r1c_uint64_t"
        cst_r2 := "constant_r2_uint64_t"
        cre_r0 := "create_r0_uint64_t"
        cre_r1 := "create_r1_uint64_t"
        cre_r2 := "create_r2_uint64_t"
        get_first := "literal_get_first_element_uint64_t" }
  | .f32 => some
      { cst_r0 := "constant_r0_float"
        cst_r1 := "constant_r1_float"
        cst_r1c := "constant_r1c_float"
        cst_r2 := "constant_r2_float"
        cre_r0 := "create_r0_float"
        cre_r1 := "create_r1_float"
        cre_r2 := "create_r2_float"
        get_first := "literal_get_first_element_float" }
  | .f64 => some
      { cst_r0 := "constant_r0_double"
        cst_r1 := "constant_r1_double"
        cst_r1c := "constant_r1c_double"
        cst_r2 := "constant_r2_double"
        cre_r0 := "create_r0_double"
        cre_r1 := "create_r1_double"
        cre_r2 := "create_r2_double"
        get_first := "literal_get_first_element_double" }
  | _ => none

/-- The host types carrying an `impl ArrayElement`: the ten numeric types
(mod.rs lines 311-320) plus the zero-sized markers `F16` and `Bf16`
(mod.rs lines 292-309). -/
inductive ArrayElemHost where
  | u8
  | u16
  | u32
  | u64
  | i8
  | i16
  | i32
  | i64
  | f32
  | f64
  | F16
  | Bf16
deriving Repr, DecidableEq

/-- The associated `TY` constant of each `impl ArrayElement` (from the
`element_type!` invocations, mod.rs lines 311-320, and the manual impls for
`F16` and `Bf16`, lines 295-309). -/
def arrayElementTY : ArrayElemHost → ElementType
  | .u8 => .U8
  | .u16 => .U16
  | .u32 => .U32
  | .u64 => .U64
  | .i8 => .S8
  | .i16 => .S16
  | .i32 => .S32
  | .i64 => .S64
  | .f32 => .F32
  | .f64 => .F64
  | .F16 => .F16
  | .Bf16 => .Bf16

/-- The associated `ELEMENT_SIZE_IN_BYTES` constant of each
`impl ArrayElement` (same source locations). -/
def arrayElementSize : ArrayElemHost → Nat
  | .u8 => 1
  | .u16 => 2
  | .u32 => 4
  | .u64 => 8
  | .i8 => 1
  | .i16 => 2
  | .i32 => 4
  | .i64 => 8
  | .f32 => 4
  | .f64 => 8
  | .F16 => 2
  | .Bf16 => 2

/-- Native-boundary events recorded by the embedding: calls into the native
layer and destructor runs. `readStatusMessage` is the
`status_error_message` read inside `c_ptr_to_string`; `freeMessageString`
is the `libc::free` of the message pointer; `freeStatus` is `status_free`;
`wrap` is the construction of an owning wrapper around a fetched handle;
`inspectStatus` marks the point where `handle_status` is invoked on the
bulk-fetch status; `freeWrapper` is a wrapper destructor releasing its
native handle. -/
inductive Event where
  | readStatusMessage (msg : String)
  | freeMessageString
  | freeStatus
  | wrap (h : Nat)
  | inspectStatus
  | freeWrapper (h : Nat)
deriving Repr, DecidableEq

/-- Embeds `handle_status` (mod.rs lines 326-339), result component. A native
status is `none` (null, success) or `some msg` (failure carrying the native
diagnostic). `bt` is the backtrace string captured on the failure path. -/
def handle_status (bt : String) : Option String → Except Error Unit
  | none => .ok ()
  | some msg => .error (.XlaError msg bt)

/-- Embeds `handle_status` (mod.rs lines 326-339), native-call trace
component: on a non-null status the message is read via
`status_error_message` and `c_ptr_to_string`, the message string is freed,
and the status handle is freed, in that order. -/
def handle_status_calls : Option String → List Event
  | none => []
  | some msg => [.readStatusMessage msg, .freeMessageString, .freeStatus]

/-- Owning wrapper around one native `hlo_computation_proto` handle
(mod.rs line 457); handles are modelled as natural numbers. -/
structure HloComputationProto where
  handle : Nat
deriving Repr, DecidableEq

/-- Owning wrapper around one native `hlo_instruction_proto` handle
(mod.rs line 494). -/
structure HloInstructionProto where
  handle : Nat
deriving Repr, DecidableEq

/-- Embeds `HloModuleProto::get_computations_size` (mod.rs lines 422-427).
The native call reports a status `szStatus` and an `i32` count `reported`.
The status is handled first; on success the count goes through
`usize::try_from(..).unwrap()`, which panics (modelled as `none`) when the
count is negative. -/
def get_computations_size (bt : String) (szStatus : Option String)
    (reported : Int) : Option (Except Error Nat) :=
  match handle_status bt szStatus with
  | .error e => some (.error e)
  | .ok () => if reported < 0 then none else some (.ok reported.toNat)

/-- Embeds `HloComputationProto::get_instructions_size` (mod.rs lines
460-465); same shape as `get_computations_size`. -/
def get_instructions_size (bt : String) (szStatus : Option String)
    (reported : Int) : Option (Except Error Nat) :=
  match handle_status bt szStatus with
  | .error e => some (.error e)
  | .ok () => if reported < 0 then none else some (.ok reported.toNat)

/-- Embeds `HloModuleProto::computations` (mod.rs lines 429-443). The size
step runs first; then `hlo_computation_protos` fills a buffer (modelled as
the list `fetched` of handles the native layer wrote) and returns
`bulkStatus`. Every buffer entry is wrapped into a `HloComputationProto`
BEFORE `handle_status` inspects the bulk status; on a failing status the
function returns only the error and the local vector of wrappers is
dropped, each destructor freeing its handle. The first component is the
value returned to the caller (`none` = panic in the size step); the second
is the event trace from the bulk fetch onward. -/
def computations (bt : String) (szStatus : Option String) (reported : Int)
    (bulkStatus : Option String) (fetched : List Nat) :
    Option (Except Error (List HloComputationProto)) × List Event :=
  match get_computations_size bt szStatus reported with
  | none => (none, [])
  | some (.error e) => (some (.error e), [])
  | some (.ok _num) =>
    let comps_out : List HloComputationProto := fetched.map HloComputationProto.mk
    let wrapEvents : List Event := comps_out.map (fun c => .wrap c.handle)
    match handle_status bt bulkStatus with
    | .ok () => (some (.ok comps_out), wrapEvents ++ [.inspectStatus] ++ handle_status_calls bulkStatus)
    | .error e =>
      (some (.error e),
        wrapEvents ++ [.inspectStatus] ++ handle_status_calls bulkStatus
          ++ comps_out.map (fun c => .freeWrapper c.handle))

/-- Embeds `HloComputationProto::instructions` (mod.rs lines 467-480);
structurally identical to `computations` but producing
`HloInstructionProto` wrappers. -/
def instructions (bt : String) (szStatus : Option String) (reported : Int)
    (bulkStatus : Option String) (fetched : List Nat) :
    Option (Except Error (List HloInstructionProto)) × List Event :=
  match get_instructions_size bt szStatus reported with
  | none => (none, [])
  | some (.error e) => (some (.error e), [])
  | some (.ok _num) =>
    let instrs_out : List HloInstructionProto := fetched.map HloInstructionProto.mk
    let wrapEvents : List Event := instrs_out.map (fun i => .wrap i.handle)
    match handle_status bt bulkStatus with
    | .ok () => (some (.ok instrs_out), wrapEvents ++ [.inspectStatus] ++ handle_status_calls bulkStatus)
    | .error e =>
      (some (.error e),
        wrapEvents ++ [.inspectStatus] ++ handle_status_calls bulkStatus
          ++ instrs_out.map (fun i => .freeWrapper i.handle))

/-- No `wrap` event occurs in the list. -/
def noWrapIn : List Event → Bool
  | [] => true
  | .wrap _ :: _ => false
  | _ :: rest => noWrapIn rest

/-- True when, in the trace, no `wrap` event occurs after an
`inspectStatus` event: every handle wrapped by the function was wrapped
before the status was inspected. -/
def wrapsPrecedeInspection : List Event → Bool
  | [] => true
  | .inspectStatus :: rest => noWrapIn rest
  | _ :: rest => wrapsPrecedeInspection rest

/-- Some wrapper destructor ran in the trace: a fetched handle was
released rather than handed to the caller. -/
def hasFreeWrapper : List Event → Bool
  | [] => false
  | .freeWrapper _ :: _ => true
  | _ :: rest => hasFreeWrapper rest

/-- The wrappers a caller actually receives from a returned value: the list
on the `ok` path, nothing on a panic or an error (Rust `Result::Err`
carries only the `Error`). -/
def callerReceives (r : Option (Except Error (List HloComputationProto))) :
    List HloComputationProto :=
  match r with
  | some (.ok l) => l
  | _ => []

/-- Outcome of the rank-2 constant constructor: either a fatal panic (a
process abort distinct from any recoverable `Error` value, carrying the
panic message, with no native call made) or a constant op built through
the native `constant_r2` binding from the row-major data. -/
inductive R2Outcome (α : Type) where
  | panicked (msg : String)
  | built (rows : Nat) (cols : Nat) (data : List α)
deriving Repr, DecidableEq

/-- Whether the outcome involved a call into the native layer: a panic
happens before the native `constant_r2` binding is reached. -/
def R2Outcome.madeNativeCall : R2Outcome α → Bool
  | .panicked _ => false
  | .built _ _ _ => true

/-- All rows of the input have the same length. -/
def allRowsSameLength (rows : List (List α)) : Bool :=
  match rows with
  | [] => true
  | r :: rest => rest.all (fun s => s.length == r.length)

/-- Modelled from the spec: `XlaBuilder::constant_r2`
(src/src/wrappers/xla_builder.rs is absent from the snapshot; only its
declaration site and the test `malformed_mat` in tests/basic_tests.rs are
present). Per the spec, a rank-2 constant built from row-major input
requires all rows to have identical length; a mismatch fails fast before
crossing into native code with a fatal panic, whose message the test pins
to the exact string below; a well-formed input reaches the native
`constant_r2` binding with the flattened row-major data. -/
def constant_r2 (rows : List (List α)) : R2Outcome α :=
  if allRowsSameLength rows then
    .built rows.length (rows.headD []).length rows.flatten
  else
    .panicked ("all rows must have the same number of columns!")

/-- Modelled from the spec: the `Literal` value type
(src/src/wrappers/literal.rs is absent from the snapshot). A literal is a
host-resident typed array (element type, dimension sizes, flat data
modelled abstractly as naturals) or an ordered tuple of child literals. -/
inductive Literal where
  | array (ty : ElementType) (dims : List Int) (data : List Nat)
  | tuple (children : List Literal)
deriving Repr

/-- Modelled from the spec: `tuple_size()` returns the child count for
tuple literals and an empty indicator (`none`) for non-tuples. -/
def Literal.tuple_size : Literal → Option Nat
  | .tuple cs => some cs.length
  | .array _ _ _ => none

/-- Modelled from the spec: `decompose_tuple()` is destructive — on a tuple
it yields the independently-owned children in order and invalidates the
parent (second component `none`); on a non-tuple it fails with a
recoverable error and the parent stays valid. -/
def Literal.decompose_tuple : Literal → Except Error (List Literal) × Option Literal
  | .tuple cs => (.ok cs, none)
  | .array ty dims data =>
    (.error (.XlaError ("not a tuple") ("")), some (.array ty dims data))

/-- C4: `PrimitiveType::element_type()` returns the `NotAnElementType` error
carrying the receiver exactly when the receiver is one of the structural
codes Invalid, Tuple, OpaqueType, Token, and returns `Ok` with the
corresponding `ElementType` (the one mapping back to the receiver under
`primitive_type`) for every one of the other fifteen primitive type
codes. -/
theorem element_type_structural_spec :
    ∀ p : PrimitiveType,
      (p.element_type = Except.error (Error.NotAnElementType p) ↔ p.isStructural = true) ∧
      (p.isStructural = false →
        ∃ e : ElementType, p.element_type = Except.ok e ∧ e.primitive_type = p) := by
  intro p
  cases p <;>
    simp [PrimitiveType.element_type, PrimitiveType.isStructural, ElementType.primitive_type]

/-- Witness for C4 at the concrete inputs `S8` (non-structural, succeeds)
and the structural side being covered by the hypothesis-free iff. -/
theorem element_type_structural_spec_witness :
    PrimitiveType.isStructural PrimitiveType.S8 = false ∧
    (∃ e : ElementType, PrimitiveType.element_type PrimitiveType.S8 = Except.ok e ∧
      e.primitive_type = PrimitiveType.S8) :=
  ⟨rfl, (element_type_structural_spec PrimitiveType.S8).2 rfl⟩

/-- C5: for every `ElementType` e, `e.primitive_type().element_type()`
returns `Ok(e)`: `primitive_type` composed with `element_type` is the
identity on `ElementType`. -/
theorem primitive_type_element_type_roundtrip :
    ∀ e : ElementType, e.primitive_type.element_type = Except.ok e := by
  intro e
  cases e <;> rfl

/-- C9: for every host type implementing `ArrayElement`, the constant
`ELEMENT_SIZE_IN_BYTES` equals `TY.element_size_in_bytes()`; in particular
the zero-sized marker types F16 and Bf16 have element size exactly 2
bytes (`element_size_in_bytes` is total by construction). -/
theorem arrayElement_size_consistent :
    (∀ t : ArrayElemHost, arrayElementSize t = (arrayElementTY t).element_size_in_bytes) ∧
    arrayElementSize ArrayElemHost.F16 = 2 ∧ arrayElementSize ArrayElemHost.Bf16 = 2 := by
  refine ⟨fun t => ?_, rfl, rfl⟩
  cases t <;> rfl

/-- Counterexample to C2 as stated: the claim asserts a `NativeType` impl
for every one of the ten host numeric types, but the source has no
`native_type!` invocation for the 8- and 16-bit integer types. -/
theorem nativeTypeImpl_missing_8_16_cex :
    (nativeTypeImpl HostNumType.i8).isSome = false ∧
    (nativeTypeImpl HostNumType.i16).isSome = false ∧
    (nativeTypeImpl HostNumType.u8).isSome = false ∧
    (nativeTypeImpl HostNumType.u16).isSome = false :=
  ⟨rfl, rfl, rfl, rfl⟩

/-- C2 (amended): the `NativeType` constant-construction capability is
implemented exactly for the 32- and 64-bit signed and unsigned integer
types and the 32- and 64-bit float types (six impls, mod.rs lines
209-279); the 8- and 16-bit integer types have no `NativeType` impl. -/
theorem nativeTypeImpl_exactly_32_64 :
    ∀ t : HostNumType,
      (nativeTypeImpl t).isSome = true ↔
        (t = HostNumType.i32 ∨ t = HostNumType.i64 ∨ t = HostNumType.u32 ∨
          t = HostNumType.u64 ∨ t = HostNumType.f32 ∨ t = HostNumType.f64) := by
  intro t
  cases t <;> decide

/-- C3: for every rank-2 constant built from row-major input, if all rows
have identical length construction succeeds (the native `constant_r2`
binding is reached with the flattened data), and if any rows differ in
length it fails before any native call with a fatal panic carrying the
exact message pinned by the `malformed_mat` test — a panic value, not a
recoverable `Error`. -/
theorem constant_r2_failfast :
    ∀ (α : Type) (rows : List (List α)),
      (constant_r2 rows).madeNativeCall = allRowsSameLength rows ∧
      (allRowsSameLength rows = false →
        constant_r2 rows =
          R2Outcome.panicked ("all rows must have the same number of columns!")) ∧
      (allRowsSameLength rows = true →
        constant_r2 rows = R2Outcome.built rows.length (rows.headD []).length rows.flatten) := by
  intro α rows
  cases h : allRowsSameLength rows <;>
    simp [constant_r2, h, R2Outcome.madeNativeCall]

/-- Witness for C3 at a concrete ragged input (panics, no native call) and
a concrete rectangular input (builds). -/
theorem constant_r2_failfast_witness :
    allRowsSameLength ([[1, 2], [3]] : List (List Nat)) = false ∧
    constant_r2 ([[1, 2], [3]] : List (List Nat)) =
      R2Outcome.panicked ("all rows must have the same number of columns!") ∧
    allRowsSameLength ([[1, 2], [3, 4]] : List (List Nat)) = true ∧
    constant_r2 ([[1, 2], [3, 4]] : List (List Nat)) = R2Outcome.built 2 2 [1, 2, 3, 4] :=
  ⟨rfl, (constant_r2_failfast Nat [[1, 2], [3]]).2.1 rfl, rfl,
    (constant_r2_failfast Nat [[1, 2], [3, 4]]).2.2 rfl⟩

/-- C6: `Literal::tuple([a, b])` followed by `decompose_tuple()` yields the
two child literals in the original order while consuming the parent
(second component `none`); `tuple_size()` on the combined literal is 2 and
on a non-tuple literal is absent. -/
theorem tuple_roundtrip_spec :
    ∀ (a b : Literal) (ty : ElementType) (dims : List Int) (data : List Nat),
      (Literal.tuple [a, b]).tuple_size = some 2 ∧
      (Literal.tuple [a, b]).decompose_tuple = (Except.ok [a, b], none) ∧
      (Literal.array ty dims data).tuple_size = none :=
  fun _ _ _ _ _ => ⟨rfl, rfl, rfl⟩

/-- C7: `handle_status` returns `Ok(())` if and only if the native status
handle is null; for a non-null status it returns an `XlaError` carrying
the native diagnostic message and the captured backtrace, reading the
message and freeing the message string and the status handle exactly
once each. -/
theorem handle_status_spec :
    ∀ (bt : String) (status : Option String),
      (handle_status bt status = Except.ok () ↔ status = none) ∧
      ∀ msg : String, status = some msg →
        handle_status bt status = Except.error (Error.XlaError msg bt) ∧
        (handle_status_calls status).count (Event.readStatusMessage msg) = 1 ∧
        (handle_status_calls status).count Event.freeMessageString = 1 ∧
        (handle_status_calls status).count Event.freeStatus = 1 := by
  intro bt status
  cases status with
  | none =>
      exact ⟨by simp [handle_status], by intro msg h; cases h⟩
  | some m =>
      refine ⟨by simp [handle_status], ?_⟩
      intro msg h
      injection h with h
      subst h
      refine ⟨rfl, ?_, ?_, ?_⟩ <;> simp [handle_status_calls, List.count_cons]

/-- Witness for C7 at the concrete non-null status carrying "oops". -/
theorem handle_status_spec_witness :
    handle_status ("") (some ("oops")) = Except.error (Error.XlaError ("oops") ("")) ∧
    (handle_status_calls (some ("oops"))).count (Event.readStatusMessage ("oops")) = 1 ∧
    (handle_status_calls (some ("oops"))).count Event.freeMessageString = 1 ∧
    (handle_status_calls (some ("oops"))).count Event.freeStatus = 1 :=
  (handle_status_spec ("") (some ("oops"))).2 ("oops") rfl

/-- C10: with a null size status, `get_computations_size` and
`get_instructions_size` panic (the i32-to-usize conversion is unwrapped,
modelled as `none`) exactly when the native layer reports a negative
count; they return `Ok(n)` only when the reported count is non-negative,
and then `n` is that count. -/
theorem size_negative_panics :
    ∀ (bt : String) (reported : Int) (st : Option String),
      (get_computations_size bt none reported = none ↔ reported < 0) ∧
      (get_instructions_size bt none reported = none ↔ reported < 0) ∧
      (∀ n : Nat, get_computations_size bt st reported = some (Except.ok n) →
        0 ≤ reported ∧ n = reported.toNat) ∧
      (∀ n : Nat, get_instructions_size bt st reported = some (Except.ok n) →
        0 ≤ reported ∧ n = reported.toNat) := by
  intro bt reported st
  refine ⟨?_, ?_, ?_, ?_⟩
  · by_cases h : reported < 0 <;> simp [get_computations_size, handle_status, h]
  · by_cases h : reported < 0 <;> simp [get_instructions_size, handle_status, h]
  · intro n hn
    cases st with
    | none =>
        by_cases h : reported < 0
        · simp [get_computations_size, handle_status, h] at hn
        · simp [get_computations_size, handle_status, h] at hn
          exact ⟨by omega, hn.symm⟩
    | some s => simp [get_computations_size, handle_status] at hn
  · intro n hn
    cases st with
    | none =>
        by_cases h : reported < 0
        · simp [get_instructions_size, handle_status, h] at hn
        · simp [get_instructions_size, handle_status, h] at hn
          exact ⟨by omega, hn.symm⟩
    | some s => simp [get_instructions_size, handle_status] at hn

/-- Witness for C10: the size step on a null status with reported count 3
yields `Ok 3` and with reported count -1 panics. -/
theorem size_negative_panics_witness :
    (get_computations_size ("") none (-1) = none ↔ (-1 : Int) < 0) ∧
    ((0 : Int) ≤ 3 ∧ (3 : Nat) = (3 : Int).toNat) :=
  ⟨(size_negative_panics ("") (-1) none).1,
    (size_negative_panics ("") 3 none).2.2.1 3 rfl⟩

lemma hasFreeWrapper_append (xs ys : List Event) :
    hasFreeWrapper (xs ++ ys) = (hasFreeWrapper xs || hasFreeWrapper ys) := by
  induction xs with
  | nil => rfl
  | cons e t ih => cases e <;> simp [hasFreeWrapper, ih]

lemma hasFreeWrapper_map_wrap (l : List α) (f : α → Nat) :
    hasFreeWrapper (l.map fun x => Event.wrap (f x)) = false := by
  induction l with
  | nil => rfl
  | cons a t ih => simpa [hasFreeWrapper] using ih

/-- C8: on the success path (null statuses, native layer fills the buffer),
`computations` and `instructions` return exactly one owning wrapper per
fetched handle — as many as the size step reports — and no wrapper
destructor runs: no handle is dropped. -/
theorem bulk_fetch_success_complete :
    ∀ (bt : String) (reported : Int) (fetched : List Nat),
      0 ≤ reported → fetched.length = reported.toNat →
      get_computations_size bt none reported = some (Except.ok reported.toNat) ∧
      (computations bt none reported none fetched).1 =
        some (Except.ok (fetched.map HloComputationProto.mk)) ∧
      (fetched.map HloComputationProto.mk).length = reported.toNat ∧
      hasFreeWrapper (computations bt none reported none fetched).2 = false ∧
      get_instructions_size bt none reported = some (Except.ok reported.toNat) ∧
      (instructions bt none reported none fetched).1 =
        some (Except.ok (fetched.map HloInstructionProto.mk)) ∧
      (fetched.map HloInstructionProto.mk).length = reported.toNat ∧
      hasFreeWrapper (instructions bt none reported none fetched).2 = false := by
  intro bt reported fetched h hlen
  have h2 : ¬ reported < 0 := by omega
  refine ⟨?_, ?_, ?_, ?_, ?_, ?_, ?_, ?_⟩
  · simp [get_computations_size, handle_status, h2]
  · simp [computations, get_computations_size, handle_status, h2]
  · simpa using hlen
  · simp [computations, get_computations_size, handle_status, h2, handle_status_calls,
      hasFreeWrapper_append, List.map_map, hasFreeWrapper]
    exact hasFreeWrapper_map_wrap fetched _
  · simp [get_instructions_size, handle_status, h2]
  · simp [instructions, get_instructions_size, handle_status, h2]
  · simpa using hlen
  · simp [instructions, get_instructions_size, handle_status, h2, handle_status_calls,
      hasFreeWrapper_append, List.map_map, hasFreeWrapper]
    exact hasFreeWrapper_map_wrap fetched _

/-- Witness for C8 at a concrete module reporting 2 computations with
handles 5 and 7. -/
theorem bulk_fetch_success_complete_witness :
    (computations ("") none 2 none [5, 7]).1 =
      some (Except.ok [HloComputationProto.mk 5, HloComputationProto.mk 7]) ∧
    hasFreeWrapper (computations ("") none 2 none [5, 7]).2 = false ∧
    (instructions ("") none 2 none [5, 7]).1 =
      some (Except.ok [HloInstructionProto.mk 5, HloInstructionProto.mk 7]) := by
  have h := bulk_fetch_success_complete ("") 2 [5, 7] (by decide) (by rfl)
  exact ⟨h.2.1, h.2.2.2.1, h.2.2.2.2.2.1⟩

lemma map_wrap_handle_comps (l : List Nat) :
    (l.map HloComputationProto.mk).map (fun c => Event.wrap c.handle) =
      l.map fun x => Event.wrap x := by
  induction l with
  | nil => rfl
  | cons a t ih => simp [ih]

lemma map_free_handle_comps (l : List Nat) :
    (l.map HloComputationProto.mk).map (fun c => Event.freeWrapper c.handle) =
      l.map fun x => Event.freeWrapper x := by
  induction l with
  | nil => rfl
  | cons a t ih => simp [ih]

lemma map_wrap_handle_instrs (l : List Nat) :
    (l.map HloInstructionProto.mk).map (fun i => Event.wrap i.handle) =
      l.map fun x => Event.wrap x := by
  induction l with
  | nil => rfl
  | cons a t ih => simp [ih]

lemma map_free_handle_instrs (l : List Nat) :
    (l.map HloInstructionProto.mk).map (fun i => Event.freeWrapper i.handle) =
      l.map fun x => Event.freeWrapper x := by
  induction l with
  | nil => rfl
  | cons a t ih => simp [ih]

lemma computations_trace_none (bt : String) (reported : Int) (fetched : List Nat)
    (h2 : ¬ reported < 0) :
    (computations bt none reported none fetched).2 =
      (fetched.map fun x => Event.wrap x) ++ [Event.inspectStatus] := by
  simp [computations, get_computations_size, handle_status, h2, handle_status_calls,
    map_wrap_handle_comps]

lemma computations_trace_some (bt m : String) (reported : Int) (fetched : List Nat)
    (h2 : ¬ reported < 0) :
    (computations bt none reported (some m) fetched).2 =
      (fetched.map fun x => Event.wrap x) ++ [Event.inspectStatus]
        ++ [Event.readStatusMessage m, Event.freeMessageString, Event.freeStatus]
        ++ (fetched.map fun x => Event.freeWrapper x) := by
  simp [computations, get_computations_size, handle_status, h2, handle_status_calls,
    map_wrap_handle_comps, map_free_handle_comps]
  rfl

lemma instructions_trace_none (bt : String) (reported : Int) (fetched : List Nat)
    (h2 : ¬ reported < 0) :
    (instructions bt none reported none fetched).2 =
      (fetched.map fun x => Event.wrap x) ++ [Event.inspectStatus] := by
  simp [instructions, get_instructions_size, handle_status, h2, handle_status_calls,
    map_wrap_handle_instrs]

lemma instructions_trace_some (bt m : String) (reported : Int) (fetched : List Nat)
    (h2 : ¬ reported < 0) :
    (instructions bt none reported (some m) fetched).2 =
      (fetched.map fun x => Event.wrap x) ++ [Event.inspectStatus]
        ++ [Event.readStatusMessage m, Event.freeMessageString, Event.freeStatus]
        ++ (fetched.map fun x => Event.freeWrapper x) := by
  simp [instructions, get_instructions_size, handle_status, h2, handle_status_calls,
    map_wrap_handle_instrs, map_free_handle_instrs]
  rfl

lemma wrapsPrecedeInspection_map_wrap_append (l : List Nat) (rest : List Event) :
    wrapsPrecedeInspection ((l.map fun x => Event.wrap x) ++ rest) =
      wrapsPrecedeInspection rest := by
  induction l with
  | nil => rfl
  | cons a t ih => simpa [wrapsPrecedeInspection] using ih

lemma noWrapIn_map_free (l : List Nat) :
    noWrapIn (l.map fun x => Event.freeWrapper x) = true := by
  induction l with
  | nil => rfl
  | cons a t ih => simpa [noWrapIn] using ih

lemma count_wrap_map_wrap (l : List Nat) (h : Nat) :
    ((l.map fun x => Event.wrap x).count (Event.wrap h)) = l.count h := by
  induction l with
  | nil => rfl
  | cons x t ih => simp [List.count_cons, ih]

lemma count_free_map_wrap (l : List Nat) (h : Nat) :
    ((l.map fun x => Event.wrap x).count (Event.freeWrapper h)) = 0 := by
  induction l with
  | nil => rfl
  | cons x t ih => simp [List.count_cons, ih]

lemma count_wrap_map_free (l : List Nat) (h : Nat) :
    ((l.map fun x => Event.freeWrapper x).count (Event.wrap h)) = 0 := by
  induction l with
  | nil => rfl
  | cons x t ih => simp [List.count_cons, ih]

lemma count_free_map_free (l : List Nat) (h : Nat) :
    ((l.map fun x => Event.freeWrapper x).count (Event.freeWrapper h)) = l.count h := by
  induction l with
  | nil => rfl
  | cons x t ih => simp [List.count_cons, ih]

/-- Counterexample to C1 as stated: on a partial failure (non-null bulk
status "boom" after two handles 4 and 7 were fetched), the caller receives
no wrappers — the function returns only the error — and the already-built
wrappers ARE dropped (their destructors run, one `freeWrapper` per
handle), contradicting "the already-wrapped partial results are still
returned to the caller alongside the error (they are not dropped)". -/
theorem computations_partial_results_dropped_cex :
    callerReceives (computations ("") none 2 (some ("boom")) [4, 7]).1 = [] ∧
    (computations ("") none 2 (some ("boom")) [4, 7]).1 =
      some (Except.error (Error.XlaError ("boom") (""))) ∧
    ((computations ("") none 2 (some ("boom")) [4, 7]).2).count (Event.wrap 4) = 1 ∧
    ((computations ("") none 2 (some ("boom")) [4, 7]).2).count (Event.freeWrapper 4) = 1 ∧
    hasFreeWrapper (computations ("") none 2 (some ("boom")) [4, 7]).2 = true :=
  ⟨rfl, rfl, rfl, rfl, rfl⟩

/-- C1 (amended): every native handle obtained from the bulk fetch is
converted into an owning wrapper before the status is inspected; but when
the status reports a partial failure, only the error is returned to the
caller (no partial results accompany it) and the already-wrapped results
are dropped, each wrapper destructor freeing its handle exactly as many
times as it was wrapped — so no handle leaks even on partial failure. -/
theorem computations_wrap_before_inspect_amended :
    ∀ (bt msg : String) (reported : Int) (bulkStatus : Option String) (fetched : List Nat),
      0 ≤ reported →
      (wrapsPrecedeInspection (computations bt none reported bulkStatus fetched).2 = true ∧
        wrapsPrecedeInspection (instructions bt none reported bulkStatus fetched).2 = true) ∧
      ((computations bt none reported (some msg) fetched).1 =
          some (Except.error (Error.XlaError msg bt)) ∧
        callerReceives (computations bt none reported (some msg) fetched).1 = [] ∧
        ∀ h : Nat,
          ((computations bt none reported (some msg) fetched).2).count (Event.freeWrapper h) =
            ((computations bt none reported (some msg) fetched).2).count (Event.wrap h)) ∧
      ((instructions bt none reported (some msg) fetched).1 =
          some (Except.error (Error.XlaError msg bt)) ∧
        ∀ h : Nat,
          ((instructions bt none reported (some msg) fetched).2).count (Event.freeWrapper h) =
            ((instructions bt none reported (some msg) fetched).2).count (Event.wrap h)) := by
  intro bt msg reported bulkStatus fetched h
  have h2 : ¬ reported < 0 := by omega
  refine ⟨⟨?_, ?_⟩, ⟨?_, ?_, ?_⟩, ⟨?_, ?_⟩⟩
  · cases bulkStatus with
    | none =>
        rw [computations_trace_none bt reported fetched h2,
          wrapsPrecedeInspection_map_wrap_append]
        rfl
    | some m =>
        rw [computations_trace_some bt m reported fetched h2]
        simp only [List.append_assoc, List.singleton_append, List.cons_append,
          wrapsPrecedeInspection_map_wrap_append]
        simp [wrapsPrecedeInspection, noWrapIn, noWrapIn_map_free]
  · cases bulkStatus with
    | none =>
        rw [instructions_trace_none bt reported fetched h2,
          wrapsPrecedeInspection_map_wrap_append]
        rfl
    | some m =>
        rw [instructions_trace_some bt m reported fetched h2]
        simp only [List.append_assoc, List.singleton_append, List.cons_append,
          wrapsPrecedeInspection_map_wrap_append]
        simp [wrapsPrecedeInspection, noWrapIn, noWrapIn_map_free]
  · simp [computations, get_computations_size, handle_status, h2]
  · simp [callerReceives, computations, get_computations_size, handle_status, h2]
  · intro hh
    rw [computations_trace_some bt msg reported fetched h2]
    simp [List.count_append, List.count_cons, count_wrap_map_wrap, count_free_map_wrap,
      count_wrap_map_free, count_free_map_free]
  · simp [instructions, get_instructions_size, handle_status, h2]
  · intro hh
    rw [instructions_trace_some bt msg reported fetched h2]
    simp [List.count_append, List.count_cons, count_wrap_map_wrap, count_free_map_wrap,
      count_wrap_map_free, count_free_map_free]

/-- Witness for the amended C1 at a concrete partial failure: two handles
fetched, bulk status "boom". -/
theorem computations_wrap_before_inspect_amended_witness :
    wrapsPrecedeInspection (computations ("") none 2 (some ("boom")) [4, 7]).2 = true ∧
    (computations ("") none 2 (some ("boom")) [4, 7]).1 =
      some (Except.error (Error.XlaError ("boom") (""))) ∧
    ((instructions ("") none 2 (some ("boom")) [4, 7]).2).count (Event.freeWrapper 7) =
      ((instructions ("") none 2 (some ("boom")) [4, 7]).2).count (Event.wrap 7) := by
  have h := computations_wrap_before_inspect_amended ("") ("boom") 2 (some ("boom")) [4, 7]
    (by decide)
  exact ⟨h.1.1, h.2.1.1, h.2.2.2 7⟩

end XlaRs
